import Mathlib

/-!
Shallow embedding of `src/Serial_Logger.ino` (Serial-AdaLogger), an Arduino
sketch that drains bytes from a serial intake and appends them to a ring of
1300 log files on an SD card, flushing on a dual byte-count/time trigger and
rotating files at a size threshold.

Modelling conventions:
- The four `uint32_t` globals (`Log_Time`, `Log_Byte_Count`,
  `Log_File_Byte_Count`, `Log_File_Number`) are `Nat` with every arithmetic
  update reduced modulo `2 ^ 32`, mirroring unsigned overflow.
- `millis()` is an input: each per-byte step of `loop` receives the value
  `now` sampled for that step (the two `millis()` reads inside one step of
  the sketch are microseconds apart and are modelled as the same reading).
- Storage and indicator side effects are recorded as an event trace `Ev`.
  The sketch discards the return values of `File.write`, `File.flush`,
  `File.close`, `SD.remove` and `SD.open`; the step therefore receives an
  `OpResults` record carrying those collaborator results and (faithfully to
  the source) never reads it.
- The startup `while` scan over file indices is embedded with a fuel
  argument of `LOG_FILE_NUMBER_MAX + 1` steps, an upper bound on its
  iteration count (the index never passes `LOG_FILE_NUMBER_MAX`).
-/

namespace SerialLogger

set_option maxRecDepth 100000

/-- `#define LOG_BYTE_TRIGGER 11250` (line 52). -/
def LOG_BYTE_TRIGGER : Nat := 11250

/-- `#define LOG_TIME_TRIGGER 3000` (line 53). -/
def LOG_TIME_TRIGGER : Nat := 3000

/-- `#define LOG_FILE_SIZE_TRIGGER 2700000` (line 54). -/
def LOG_FILE_SIZE_TRIGGER : Nat := 2700000

/-- `#define LOG_FILE_NUMBER_MAX 1299` (line 56). -/
def LOG_FILE_NUMBER_MAX : Nat := 1299

/-- Modulus of `uint32_t` arithmetic. -/
def UINT32_MOD : Nat := 4294967296

/-- `#define DBUG_RED_LED_PIN 13` (line 67). -/
def DBUG_RED_LED_PIN : Nat := 13

/-- `#define DBUG_GRN_LED_PIN 8` (line 68). -/
def DBUG_GRN_LED_PIN : Nat := 8

/-- `String Str_Zeros(int x)` (lines 120-125): the zero padding placed before
the decimal digits of `x` in a log-file name.  The sketch only ever calls it
with file indices (`0 ≤ x ≤ 1300`), modelled as `Nat`. -/
def Str_Zeros (x : Nat) : String :=
  if x > 999 then ""
  else if x > 99 then "0"
  else if x > 9 then "00"
  else "000"

/-- `#define LOG_FILE(x) (String(LOG_FILE_PREFIX + Str_Zeros(x) + String(x) + LOG_FILE_SUFFIX))`
(line 59), with the literal file-name prefix `"Dat"` (line 57) and the
literal file-name ending `".log"` (line 58) inlined. -/
def LOG_FILE (x : Nat) : String :=
  "Dat" ++ Str_Zeros x ++ toString x ++ ".log"

/-- Specification-side padding: the decimal digits left-padded with `'0'`
characters to exactly 4 characters (spec section 6, claim C7).  Compared
against `LOG_FILE`, which is translated from the source. -/
def specPadded4 (s : String) : String :=
  String.mk (List.replicate (4 - s.length) '0') ++ s

/-- Observable events of one run: storage operations, serial reads and
debug-indicator writes, in program order. -/
inductive Ev where
  | append (name : String) (b : Nat)
  | flush
  | close
  | remove (name : String)
  | openF (name : String)
  | serialRead (b : Nat)
  | led (pin : Nat) (high : Bool)
  | delayMs (ms : Nat)
deriving DecidableEq, Repr

/-- Results returned by the storage collaborator for the operations one
drained byte can issue (`write`, `flush`, `close`, `remove`, `open`).  The
sketch discards all of them, so the step function receives this record and
never inspects it. -/
structure OpResults where
  writeOk : Bool
  flushOk : Bool
  closeOk : Bool
  removeOk : Bool
  openOk : Bool
deriving DecidableEq, Repr

/-- The four logger globals (lines 114-117).  `dataFile` always holds the
handle opened on `LOG_FILE Log_File_Number`, so it is not stored
separately; append events name the file explicitly. -/
structure LoggerState where
  Log_Time : Nat
  Log_Byte_Count : Nat
  Log_File_Byte_Count : Nat
  Log_File_Number : Nat
deriving DecidableEq, Repr

/-- Global initial values (lines 114-117) with `Log_File_Number` set to the
index chosen by the startup scan (`setup` does not touch the other three). -/
def initLogger (n : Nat) : LoggerState :=
  { Log_Time := 0, Log_Byte_Count := 0, Log_File_Byte_Count := 0, Log_File_Number := n }

/-- One iteration of the drain loop body (lines 232-268): write one byte to
the active file, increment both byte counters, and run the flush/rotate
logic when the byte-count or time trigger fires.  `now` is the `millis()`
reading for this step; `r` carries the storage results the sketch discards. -/
def loopStep (r : OpResults) (s : LoggerState) (b now : Nat) : LoggerState × List Ev :=
  let fc := (s.Log_File_Byte_Count + 1) % UINT32_MOD
  let bc := (s.Log_Byte_Count + 1) % UINT32_MOD
  if bc ≥ LOG_BYTE_TRIGGER ∨ now ≥ s.Log_Time then
    let lt := (now + LOG_TIME_TRIGGER) % UINT32_MOD
    if fc < LOG_FILE_SIZE_TRIGGER then
      ({ s with Log_File_Byte_Count := fc, Log_Byte_Count := 0, Log_Time := lt },
       [Ev.append (LOG_FILE s.Log_File_Number) b, Ev.led DBUG_RED_LED_PIN true,
        Ev.flush, Ev.led DBUG_RED_LED_PIN false])
    else
      let n := if (s.Log_File_Number + 1) % UINT32_MOD > LOG_FILE_NUMBER_MAX then 0
               else (s.Log_File_Number + 1) % UINT32_MOD
      ({ Log_Time := lt, Log_Byte_Count := 0, Log_File_Byte_Count := 0, Log_File_Number := n },
       [Ev.append (LOG_FILE s.Log_File_Number) b, Ev.led DBUG_RED_LED_PIN true,
        Ev.close,
        Ev.remove (if n = LOG_FILE_NUMBER_MAX then LOG_FILE 0 else LOG_FILE ((n + 1) % UINT32_MOD)),
        Ev.openF (LOG_FILE n), Ev.led DBUG_RED_LED_PIN false])
  else
    ({ s with Log_File_Byte_Count := fc, Log_Byte_Count := bc },
     [Ev.append (LOG_FILE s.Log_File_Number) b])

/-- One drained byte together with the `millis()` reading and the storage
results of its step. -/
structure LoopInput where
  b : Nat
  now : Nat
  r : OpResults
deriving DecidableEq, Repr

/-- The `while (Serial2.available())` drain (lines 232-269) over a finite
sequence of buffered bytes: one `loopStep` per byte, traces concatenated in
program order. -/
def drainLoop : LoggerState → List LoopInput → LoggerState × List Ev
  | s, [] => (s, [])
  | s, i :: rest =>
      let p := loopStep i.r s i.b i.now
      let q := drainLoop p.1 rest
      (q.1, p.2 ++ q.2)

/-- The byte of an append event, if any. -/
def evByte : Ev → Option Nat
  | .append _ b => some b
  | _ => none

/-- The bytes appended to storage by a trace, in order. -/
def appendedBytes (evs : List Ev) : List Nat :=
  evs.filterMap evByte

/-- Splits a trace into per-file byte segments: bytes accumulate into the
current segment and a `close` event ends it (rotation order = trace order). -/
def segsAux : List Ev → List Nat → List (List Nat)
  | [], cur => [cur]
  | Ev.append _ b :: rest, cur => segsAux rest (cur ++ [b])
  | Ev.close :: rest, cur => cur :: segsAux rest []
  | Ev.flush :: rest, cur => segsAux rest cur
  | Ev.remove _ :: rest, cur => segsAux rest cur
  | Ev.openF _ :: rest, cur => segsAux rest cur
  | Ev.serialRead _ :: rest, cur => segsAux rest cur
  | Ev.led _ _ :: rest, cur => segsAux rest cur
  | Ev.delayMs _ :: rest, cur => segsAux rest cur

/-- The bytes appended to each file, across file boundaries, in ring
rotation order. -/
def fileSegments (evs : List Ev) : List (List Nat) :=
  segsAux evs []

/-- Number of buffer-committing storage operations (`flush` or `close`) in a
trace. -/
def commitCount (evs : List Ev) : Nat :=
  (evs.filter fun e => match e with
    | .flush => true
    | .close => true
    | _ => false).length

/-- Counts the events satisfying `p`. -/
def countEv (p : Ev → Bool) (evs : List Ev) : Nat :=
  (evs.filter p).length

def isAppendEv : Ev → Bool
  | .append _ _ => true
  | _ => false

def isFlushEv : Ev → Bool
  | .flush => true
  | _ => false

def isCloseEv : Ev → Bool
  | .close => true
  | _ => false

def isRemoveEv : Ev → Bool
  | .remove _ => true
  | _ => false

def isOpenEv : Ev → Bool
  | .openF _ => true
  | _ => false

/-- Storage or serial-intake events: anything that reads the serial source
or touches the SD card. -/
def isIngestEv : Ev → Bool
  | .serialRead _ => true
  | .append _ _ => true
  | .flush => true
  | .close => true
  | .remove _ => true
  | .openF _ => true
  | _ => false

/-- The startup scan `while` loop (lines 173-175):
`while ((n < LOG_FILE_NUMBER_MAX) && (SD.exists(LOG_FILE(n)))) n++;`
embedded with a fuel argument bounding its iteration count (the loop runs at
most `LOG_FILE_NUMBER_MAX` iterations since `n` increases and stops at
`LOG_FILE_NUMBER_MAX`).  `ex name` is `SD.exists(name)`. -/
def scanFromAux (ex : String → Bool) : Nat → Nat → Nat
  | 0, n => n
  | fuel + 1, n =>
      if n < LOG_FILE_NUMBER_MAX ∧ ex (LOG_FILE n) = true then scanFromAux ex fuel (n + 1)
      else n

/-- The value of `Log_File_Number` after the startup scan loop, starting
from 0 (line 172). -/
def scanLogFileNumber (ex : String → Bool) : Nat :=
  scanFromAux ex (LOG_FILE_NUMBER_MAX + 1) 0

/-- Lines 171-191 of `setup`: scan for the first free slot, the (dead-coded)
full-ring fallback, the pre-emptive delete of the next slot in line, and the
open of the active file.  Returns the final `Log_File_Number` and the
storage events in program order. -/
def setupScan (ex : String → Bool) : Nat × List Ev :=
  let n0 := scanLogFileNumber ex
  let n1 := if n0 > LOG_FILE_NUMBER_MAX then 0 else n0
  let evs0 : List Ev := if n0 > LOG_FILE_NUMBER_MAX then [Ev.remove (LOG_FILE 0)] else []
  let evs1 : List Ev :=
    if n1 = LOG_FILE_NUMBER_MAX then [Ev.remove (LOG_FILE 0)]
    else [Ev.remove (LOG_FILE (n1 + 1))]
  (n1, evs0 ++ evs1 ++ [Ev.openF (LOG_FILE n1)])

/-- Whole-system mode: `setup` either hangs in the SD-failure flash loop
forever or enters the drain loop with logger state `s`. -/
inductive SysState where
  | failedInit
  | running (s : LoggerState)
deriving DecidableEq, Repr

/-- One period of the `while(1)` failure indication (lines 150-169): three
double-LED blinks. -/
def failFlash : List Ev :=
  [Ev.led DBUG_GRN_LED_PIN true, Ev.led DBUG_RED_LED_PIN true, Ev.delayMs 100,
   Ev.led DBUG_GRN_LED_PIN false, Ev.led DBUG_RED_LED_PIN false, Ev.delayMs 300,
   Ev.led DBUG_GRN_LED_PIN true, Ev.led DBUG_RED_LED_PIN true, Ev.delayMs 100,
   Ev.led DBUG_GRN_LED_PIN false, Ev.led DBUG_RED_LED_PIN false, Ev.delayMs 300,
   Ev.led DBUG_GRN_LED_PIN true, Ev.led DBUG_RED_LED_PIN true, Ev.delayMs 100,
   Ev.led DBUG_GRN_LED_PIN false, Ev.led DBUG_RED_LED_PIN false, Ev.delayMs 1100]

/-- `setup` (lines 147-191), pin configuration elided: if `SD.begin` fails
the system is stuck in the failure-flash loop; otherwise the startup scan
runs and the drain loop starts with the chosen file number. -/
def setupSys (sdBeginOk : Bool) (ex : String → Bool) : SysState × List Ev :=
  if sdBeginOk then
    let p := setupScan ex
    (SysState.running (initLogger p.1), p.2)
  else (SysState.failedInit, [])

/-- One whole-system step: in the failed mode, one period of the failure
flash (the `while(1)` body, which touches neither the serial source nor the
SD card); in the running mode, one drained byte. -/
def sysStep : SysState → LoopInput → SysState × List Ev
  | SysState.failedInit, _ => (SysState.failedInit, failFlash)
  | SysState.running s, i =>
      let p := loopStep i.r s i.b i.now
      (SysState.running p.1, Ev.serialRead i.b :: p.2)

/-- Iterated whole-system steps. -/
def sysRun : SysState → List LoopInput → SysState × List Ev
  | st, [] => (st, [])
  | st, i :: rest =>
      let p := sysStep st i
      let q := sysRun p.1 rest
      (q.1, p.2 ++ q.2)

/-- A concrete SD-card content for the startup-scan scenario of claim C6:
exactly the slots 0, 1 and 2 are occupied. -/
def exThreeSlots : String → Bool := fun s =>
  s == "Dat0000.log" || s == "Dat0001.log" || s == "Dat0002.log"

/-- Invariant carried through the drain loop: the unflushed byte count stays
below the byte trigger (it is zeroed whenever it reaches it), and the active
file's byte count exceeds the size trigger by at most the unflushed count
(their difference is fixed between trigger firings and is zeroed or kept
below the size trigger at each firing). -/
def LoggerInv (s : LoggerState) : Prop :=
  s.Log_Byte_Count < LOG_BYTE_TRIGGER ∧
  s.Log_File_Byte_Count + 1 ≤ s.Log_Byte_Count + LOG_FILE_SIZE_TRIGGER

/-! Branch lemmas for `loopStep`, shared by several claims. -/

theorem loopStep_noFire (r : OpResults) (s : LoggerState) (b now : Nat)
    (h : ¬ ((s.Log_Byte_Count + 1) % UINT32_MOD ≥ LOG_BYTE_TRIGGER ∨ now ≥ s.Log_Time)) :
    loopStep r s b now =
      ({ s with Log_File_Byte_Count := (s.Log_File_Byte_Count + 1) % UINT32_MOD,
                Log_Byte_Count := (s.Log_Byte_Count + 1) % UINT32_MOD },
       [Ev.append (LOG_FILE s.Log_File_Number) b]) := by
  simp only [loopStep]
  rw [if_neg h]

theorem loopStep_flush (r : OpResults) (s : LoggerState) (b now : Nat)
    (hf : (s.Log_Byte_Count + 1) % UINT32_MOD ≥ LOG_BYTE_TRIGGER ∨ now ≥ s.Log_Time)
    (hlt : (s.Log_File_Byte_Count + 1) % UINT32_MOD < LOG_FILE_SIZE_TRIGGER) :
    loopStep r s b now =
      ({ s with Log_File_Byte_Count := (s.Log_File_Byte_Count + 1) % UINT32_MOD,
                Log_Byte_Count := 0, Log_Time := (now + LOG_TIME_TRIGGER) % UINT32_MOD },
       [Ev.append (LOG_FILE s.Log_File_Number) b, Ev.led DBUG_RED_LED_PIN true,
        Ev.flush, Ev.led DBUG_RED_LED_PIN false]) := by
  simp only [loopStep]
  rw [if_pos hf, if_pos hlt]

theorem loopStep_rotateRaw (r : OpResults) (s : LoggerState) (b now : Nat)
    (hf : (s.Log_Byte_Count + 1) % UINT32_MOD ≥ LOG_BYTE_TRIGGER ∨ now ≥ s.Log_Time)
    (hge : LOG_FILE_SIZE_TRIGGER ≤ (s.Log_File_Byte_Count + 1) % UINT32_MOD) :
    loopStep r s b now =
      ({ Log_Time := (now + LOG_TIME_TRIGGER) % UINT32_MOD, Log_Byte_Count := 0,
         Log_File_Byte_Count := 0,
         Log_File_Number := if (s.Log_File_Number + 1) % UINT32_MOD > LOG_FILE_NUMBER_MAX then 0
                            else (s.Log_File_Number + 1) % UINT32_MOD },
       [Ev.append (LOG_FILE s.Log_File_Number) b, Ev.led DBUG_RED_LED_PIN true,
        Ev.close,
        Ev.remove (if (if (s.Log_File_Number + 1) % UINT32_MOD > LOG_FILE_NUMBER_MAX then 0
                       else (s.Log_File_Number + 1) % UINT32_MOD) = LOG_FILE_NUMBER_MAX
                   then LOG_FILE 0
                   else LOG_FILE (((if (s.Log_File_Number + 1) % UINT32_MOD > LOG_FILE_NUMBER_MAX then 0
                                    else (s.Log_File_Number + 1) % UINT32_MOD) + 1) % UINT32_MOD)),
        Ev.openF (LOG_FILE (if (s.Log_File_Number + 1) % UINT32_MOD > LOG_FILE_NUMBER_MAX then 0
                            else (s.Log_File_Number + 1) % UINT32_MOD)),
        Ev.led DBUG_RED_LED_PIN false]) := by
  simp only [loopStep]
  rw [if_pos hf, if_neg (not_lt.mpr hge)]

theorem rotate_number (n : Nat) (hn : n ≤ LOG_FILE_NUMBER_MAX) :
    (if (n + 1) % UINT32_MOD > LOG_FILE_NUMBER_MAX then 0 else (n + 1) % UINT32_MOD)
      = (n + 1) % (LOG_FILE_NUMBER_MAX + 1) := by
  have h1 : LOG_FILE_NUMBER_MAX = 1299 := rfl
  have h2 : UINT32_MOD = 4294967296 := rfl
  simp only [h1, h2] at hn ⊢
  split <;> omega

theorem rotate_removed (m : Nat) (hm : m ≤ LOG_FILE_NUMBER_MAX) :
    (if m = LOG_FILE_NUMBER_MAX then LOG_FILE 0 else LOG_FILE ((m + 1) % UINT32_MOD))
      = LOG_FILE ((m + 1) % (LOG_FILE_NUMBER_MAX + 1)) := by
  have h1 : LOG_FILE_NUMBER_MAX = 1299 := rfl
  have h2 : UINT32_MOD = 4294967296 := rfl
  by_cases h : m = LOG_FILE_NUMBER_MAX
  · rw [if_pos h]
    congr 1
    simp only [h1] at h ⊢
    omega
  · rw [if_neg h]
    congr 1
    simp only [h1, h2] at h hm ⊢
    omega

theorem loopStep_rotate (r : OpResults) (s : LoggerState) (b now : Nat)
    (hn : s.Log_File_Number ≤ LOG_FILE_NUMBER_MAX)
    (hf : (s.Log_Byte_Count + 1) % UINT32_MOD ≥ LOG_BYTE_TRIGGER ∨ now ≥ s.Log_Time)
    (hge : LOG_FILE_SIZE_TRIGGER ≤ (s.Log_File_Byte_Count + 1) % UINT32_MOD) :
    loopStep r s b now =
      ({ Log_Time := (now + LOG_TIME_TRIGGER) % UINT32_MOD, Log_Byte_Count := 0,
         Log_File_Byte_Count := 0,
         Log_File_Number := (s.Log_File_Number + 1) % (LOG_FILE_NUMBER_MAX + 1) },
       [Ev.append (LOG_FILE s.Log_File_Number) b, Ev.led DBUG_RED_LED_PIN true,
        Ev.close,
        Ev.remove (LOG_FILE (((s.Log_File_Number + 1) % (LOG_FILE_NUMBER_MAX + 1) + 1)
                             % (LOG_FILE_NUMBER_MAX + 1))),
        Ev.openF (LOG_FILE ((s.Log_File_Number + 1) % (LOG_FILE_NUMBER_MAX + 1))),
        Ev.led DBUG_RED_LED_PIN false]) := by
  have hm : (s.Log_File_Number + 1) % (LOG_FILE_NUMBER_MAX + 1) ≤ LOG_FILE_NUMBER_MAX := by
    have h1 : LOG_FILE_NUMBER_MAX = 1299 := rfl
    simp only [h1]
    omega
  rw [loopStep_rotateRaw r s b now hf hge, rotate_number s.Log_File_Number hn,
      rotate_removed ((s.Log_File_Number + 1) % (LOG_FILE_NUMBER_MAX + 1)) hm]

/-! Invariant preservation. -/

theorem loopStep_inv (r : OpResults) (s : LoggerState) (b now : Nat)
    (h : LoggerInv s) : LoggerInv (loopStep r s b now).1 := by
  obtain ⟨h1, h2⟩ := h
  have hB : LOG_BYTE_TRIGGER = 11250 := rfl
  have hF : LOG_FILE_SIZE_TRIGGER = 2700000 := rfl
  have hU : UINT32_MOD = 4294967296 := rfl
  have hbc : (s.Log_Byte_Count + 1) % UINT32_MOD = s.Log_Byte_Count + 1 :=
    Nat.mod_eq_of_lt (by omega)
  have hfc : (s.Log_File_Byte_Count + 1) % UINT32_MOD = s.Log_File_Byte_Count + 1 :=
    Nat.mod_eq_of_lt (by omega)
  by_cases hf : (s.Log_Byte_Count + 1) % UINT32_MOD ≥ LOG_BYTE_TRIGGER ∨ now ≥ s.Log_Time
  · by_cases hlt : (s.Log_File_Byte_Count + 1) % UINT32_MOD < LOG_FILE_SIZE_TRIGGER
    · rw [loopStep_flush r s b now hf hlt]
      simp only [LoggerInv]
      rw [hfc] at hlt ⊢
      omega
    · rw [loopStep_rotateRaw r s b now hf (by omega)]
      simp only [LoggerInv]
      omega
  · rw [loopStep_noFire r s b now hf]
    simp only [LoggerInv]
    rw [hbc] at hf ⊢
    rw [hfc]
    omega

theorem drainLoop_inv (s : LoggerState) (l : List LoopInput)
    (h : LoggerInv s) : LoggerInv (drainLoop s l).1 := by
  induction l generalizing s with
  | nil => simpa [drainLoop] using h
  | cons i rest ih =>
      simp only [drainLoop]
      exact ih (loopStep i.r s i.b i.now).1 (loopStep_inv i.r s i.b i.now h)

/-! Trace lemmas. -/

theorem appendedBytes_append (l1 l2 : List Ev) :
    appendedBytes (l1 ++ l2) = appendedBytes l1 ++ appendedBytes l2 := by
  simp [appendedBytes]

theorem appendedBytes_loopStep (r : OpResults) (s : LoggerState) (b now : Nat) :
    appendedBytes (loopStep r s b now).2 = [b] := by
  simp only [loopStep]
  split
  · split <;> simp [appendedBytes, evByte]
  · simp [appendedBytes, evByte]

theorem appendedBytes_drainLoop (s : LoggerState) (l : List LoopInput) :
    appendedBytes (drainLoop s l).2 = l.map LoopInput.b := by
  induction l generalizing s with
  | nil => simp [drainLoop, appendedBytes]
  | cons i rest ih =>
      simp only [drainLoop, List.map_cons]
      rw [appendedBytes_append, appendedBytes_loopStep, ih]
      rfl

theorem segsAux_flatten (evs : List Ev) :
    ∀ cur, (segsAux evs cur).flatten = cur ++ appendedBytes evs := by
  induction evs with
  | nil => intro cur; simp [segsAux, appendedBytes]
  | cons e rest ih =>
      intro cur
      cases e <;> simp [segsAux, appendedBytes, evByte, ih, List.filterMap_cons]

/-! Startup-scan lemmas. -/

theorem scanFromAux_finds (ex : String → Bool) (i : Nat)
    (hstop : i = LOG_FILE_NUMBER_MAX ∨ ex (LOG_FILE i) = false)
    (hi : i ≤ LOG_FILE_NUMBER_MAX) :
    ∀ fuel n, n ≤ i → i ≤ n + fuel →
      (∀ j, n ≤ j → j < i → ex (LOG_FILE j) = true) →
      scanFromAux ex fuel n = i := by
  intro fuel
  induction fuel with
  | zero =>
      intro n hni hin _
      have hn : n = i := by omega
      simp [scanFromAux, hn]
  | succ f ih =>
      intro n hni hin hall
      by_cases hn : n = i
      · subst hn
        rcases hstop with hmax | hfree
        · have hc : ¬ (n < LOG_FILE_NUMBER_MAX ∧ ex (LOG_FILE n) = true) := by
            intro hcon
            omega
          simp only [scanFromAux]
          rw [if_neg hc]
        · have hc : ¬ (n < LOG_FILE_NUMBER_MAX ∧ ex (LOG_FILE n) = true) := by
            intro hcon
            rw [hfree] at hcon
            exact Bool.false_ne_true hcon.2
          simp only [scanFromAux]
          rw [if_neg hc]
      · have hlt : n < i := by omega
        have hc : n < LOG_FILE_NUMBER_MAX ∧ ex (LOG_FILE n) = true :=
          ⟨by omega, hall n le_rfl hlt⟩
        simp only [scanFromAux]
        rw [if_pos hc]
        exact ih (n + 1) (by omega) (by omega) (fun j h1 h2 => hall j (by omega) h2)

theorem scanLogFileNumber_le (ex : String → Bool) :
    ∀ fuel n, n ≤ LOG_FILE_NUMBER_MAX → scanFromAux ex fuel n ≤ LOG_FILE_NUMBER_MAX := by
  intro fuel
  induction fuel with
  | zero => intro n hn; simpa [scanFromAux] using hn
  | succ f ih =>
      intro n hn
      simp only [scanFromAux]
      split
      · rename_i hc
        exact ih (n + 1) (by omega)
      · exact hn

/-! Failure-mode run lemma. -/

theorem sysRun_failed (inputs : List LoopInput) :
    sysRun SysState.failedInit inputs =
      (SysState.failedInit, (List.replicate inputs.length failFlash).flatten) := by
  induction inputs with
  | nil => simp [sysRun]
  | cons i rest ih =>
      simp only [sysRun, sysStep, ih, List.length_cons, List.replicate_succ,
        List.flatten_cons]

theorem countEv_append (p : Ev → Bool) (l1 l2 : List Ev) :
    countEv p (l1 ++ l2) = countEv p l1 + countEv p l2 := by
  simp [countEv]

theorem countEv_flatten_replicate (p : Ev → Bool) (n : Nat) (l : List Ev)
    (h : countEv p l = 0) : countEv p (List.replicate n l).flatten = 0 := by
  induction n with
  | zero => simp [countEv]
  | succ m ih =>
      rw [List.replicate_succ, List.flatten_cons, countEv_append, h, ih]

/-! The claims. -/

/-- C1: for every finite sequence of bytes drained from the serial intake by
the main loop, the bytes appended to storage — equivalently, the per-file
byte segments concatenated across file boundaries in ring rotation order
(rotation advances with the trace, so trace order is rotation order) — equal
the drained input sequence exactly: no reordering, no duplication, no
insertion, and each drained byte is appended exactly once, in its own step,
before the next byte is drained. -/
theorem claim_C1 (s : LoggerState) (inputs : List LoopInput) :
    appendedBytes (drainLoop s inputs).2 = inputs.map LoopInput.b ∧
    (fileSegments (drainLoop s inputs).2).flatten = inputs.map LoopInput.b := by
  refine ⟨appendedBytes_drainLoop s inputs, ?_⟩
  rw [fileSegments, segsAux_flatten, List.nil_append]
  exact appendedBytes_drainLoop s inputs

/-- C2: at every rotation (trigger fired and the incremented file byte count
at or above the size trigger), the new active index is the old one plus one
modulo 1300, the slot removed is exactly the slot at ring index
`(new_active_index + 1) % 1300`, and within the step the removal event
strictly precedes the open of the newly active slot; the only append of the
step targets the old slot, so no byte reaches the new slot before the
removal. -/
theorem claim_C2 (r : OpResults) (s : LoggerState) (b now : Nat)
    (hn : s.Log_File_Number ≤ LOG_FILE_NUMBER_MAX)
    (hf : (s.Log_Byte_Count + 1) % UINT32_MOD ≥ LOG_BYTE_TRIGGER ∨ now ≥ s.Log_Time)
    (hge : LOG_FILE_SIZE_TRIGGER ≤ (s.Log_File_Byte_Count + 1) % UINT32_MOD) :
    (loopStep r s b now).1.Log_File_Number
        = (s.Log_File_Number + 1) % (LOG_FILE_NUMBER_MAX + 1) ∧
    (loopStep r s b now).2 =
      [Ev.append (LOG_FILE s.Log_File_Number) b, Ev.led DBUG_RED_LED_PIN true, Ev.close,
       Ev.remove (LOG_FILE ((((s.Log_File_Number + 1) % (LOG_FILE_NUMBER_MAX + 1)) + 1)
                            % (LOG_FILE_NUMBER_MAX + 1))),
       Ev.openF (LOG_FILE ((s.Log_File_Number + 1) % (LOG_FILE_NUMBER_MAX + 1))),
       Ev.led DBUG_RED_LED_PIN false] := by
  rw [loopStep_rotate r s b now hn hf hge]
  exact ⟨rfl, rfl⟩

/-- C2 witness: the wraparound rotation from active index 1299 advances to
index 0 and removes slot 1. -/
theorem claim_C2_witness :
    (loopStep ⟨true, true, true, true, true⟩ ⟨5, 11249, 2699999, 1299⟩ 9 0).1.Log_File_Number
        = 0 ∧
    (loopStep ⟨true, true, true, true, true⟩ ⟨5, 11249, 2699999, 1299⟩ 9 0).2 =
      [Ev.append (LOG_FILE 1299) 9, Ev.led DBUG_RED_LED_PIN true, Ev.close,
       Ev.remove (LOG_FILE 1), Ev.openF (LOG_FILE 0), Ev.led DBUG_RED_LED_PIN false] := by
  have h := claim_C2 ⟨true, true, true, true, true⟩ ⟨5, 11249, 2699999, 1299⟩ 9 0
      (by decide) (Or.inl (by decide)) (by decide)
  simpa using h

/-- C4: at a flush point (trigger fired), if the active file's byte count is
still below the size trigger only a flush happens — same file number, no
close/remove/open; and at every flush point at which the byte count has
reached the size trigger a full rotation happens (so rotation occurs at the
first such flush point, never later). -/
theorem claim_C4 (r : OpResults) (s : LoggerState) (b now : Nat)
    (hn : s.Log_File_Number ≤ LOG_FILE_NUMBER_MAX)
    (hf : (s.Log_Byte_Count + 1) % UINT32_MOD ≥ LOG_BYTE_TRIGGER ∨ now ≥ s.Log_Time) :
    ((s.Log_File_Byte_Count + 1) % UINT32_MOD < LOG_FILE_SIZE_TRIGGER →
      (loopStep r s b now).1.Log_File_Number = s.Log_File_Number ∧
      (loopStep r s b now).1.Log_File_Byte_Count = (s.Log_File_Byte_Count + 1) % UINT32_MOD ∧
      (loopStep r s b now).2 =
        [Ev.append (LOG_FILE s.Log_File_Number) b, Ev.led DBUG_RED_LED_PIN true,
         Ev.flush, Ev.led DBUG_RED_LED_PIN false]) ∧
    (LOG_FILE_SIZE_TRIGGER ≤ (s.Log_File_Byte_Count + 1) % UINT32_MOD →
      (loopStep r s b now).1.Log_File_Byte_Count = 0 ∧
      (loopStep r s b now).1.Log_File_Number
          = (s.Log_File_Number + 1) % (LOG_FILE_NUMBER_MAX + 1) ∧
      (loopStep r s b now).2 =
        [Ev.append (LOG_FILE s.Log_File_Number) b, Ev.led DBUG_RED_LED_PIN true, Ev.close,
         Ev.remove (LOG_FILE ((((s.Log_File_Number + 1) % (LOG_FILE_NUMBER_MAX + 1)) + 1)
                              % (LOG_FILE_NUMBER_MAX + 1))),
         Ev.openF (LOG_FILE ((s.Log_File_Number + 1) % (LOG_FILE_NUMBER_MAX + 1))),
         Ev.led DBUG_RED_LED_PIN false]) := by
  constructor
  · intro hlt
    rw [loopStep_flush r s b now hf hlt]
    exact ⟨rfl, rfl, rfl⟩
  · intro hge
    rw [loopStep_rotate r s b now hn hf hge]
    exact ⟨rfl, rfl, rfl⟩

/-- C4 witness: a flush point below the size trigger flushes without
rotating. -/
theorem claim_C4_witness :
    (loopStep ⟨true, true, true, true, true⟩ (initLogger 0) 7 0).1.Log_File_Number = 0 ∧
    (loopStep ⟨true, true, true, true, true⟩ (initLogger 0) 7 0).1.Log_File_Byte_Count = 1 ∧
    (loopStep ⟨true, true, true, true, true⟩ (initLogger 0) 7 0).2 =
      [Ev.append (LOG_FILE 0) 7, Ev.led DBUG_RED_LED_PIN true,
       Ev.flush, Ev.led DBUG_RED_LED_PIN false] := by
  have h := (claim_C4 ⟨true, true, true, true, true⟩ (initLogger 0) 7 0 (by decide)
      (Or.inr (by decide))).1 (by decide)
  simpa [initLogger] using h

/-- C5, evaluation of the code on the full ring: when `SD.exists` is true
for every name, the startup scan stops at index 1299 (the loop bound is
strict, so `Log_File_Number` never exceeds `LOG_FILE_NUMBER_MAX` and the
fallback branch that would delete and reuse slot 0 is unreachable); the
sketch keeps 1299 — an occupied slot — as the active index, removes only
slot 0, and never touches slot 1. -/
theorem claim_C5_full_ring :
    setupScan (fun _ => true) =
      (LOG_FILE_NUMBER_MAX,
       [Ev.remove (LOG_FILE 0), Ev.openF (LOG_FILE LOG_FILE_NUMBER_MAX)]) := by
  decide

/-- C8 counterexample: a step in which every storage operation fails is
indistinguishable — same successor state, same event trace, no failure
indication — from the same step with every operation succeeding, so a
write/flush failure is silently swallowed rather than surfaced. -/
theorem claim_C8_counterexample :
    loopStep ⟨false, false, false, false, false⟩ (initLogger 0) 7 0
      = loopStep ⟨true, true, true, true, true⟩ (initLogger 0) 7 0 := rfl

/-- C8 as amended: storage-operation results are ignored during normal
operation — the core behaves identically whether each operation succeeds or
fails (failures are neither surfaced nor recovered) — and no retry is
attempted: per drained byte, exactly one write is issued and each of flush,
close, remove and open is issued at most once. -/
theorem claim_C8_amended (r r2 : OpResults) (s : LoggerState) (b now : Nat) :
    loopStep r s b now = loopStep r2 s b now ∧
    countEv isAppendEv (loopStep r s b now).2 = 1 ∧
    countEv isFlushEv (loopStep r s b now).2 ≤ 1 ∧
    countEv isCloseEv (loopStep r s b now).2 ≤ 1 ∧
    countEv isRemoveEv (loopStep r s b now).2 ≤ 1 ∧
    countEv isOpenEv (loopStep r s b now).2 ≤ 1 := by
  refine ⟨rfl, ?_, ?_, ?_, ?_, ?_⟩ <;>
    simp only [loopStep] <;>
    split_ifs <;>
    simp [countEv, isAppendEv, isFlushEv, isCloseEv, isRemoveEv, isOpenEv]

/-- C10: starting from the post-setup state, after draining any input
sequence the active file's byte count is strictly below
`LOG_FILE_SIZE_TRIGGER + LOG_BYTE_TRIGGER` = 2,711,250: the per-byte trigger
check forces a flush evaluation at least every `LOG_BYTE_TRIGGER` bytes and
rotation fires at the first flush evaluation at or past the size trigger. -/
theorem claim_C10 (n : Nat) (inputs : List LoopInput) :
    (drainLoop (initLogger n) inputs).1.Log_File_Byte_Count
      < LOG_FILE_SIZE_TRIGGER + LOG_BYTE_TRIGGER := by
  have h0 : LoggerInv (initLogger n) := by
    constructor <;> simp [initLogger, LOG_BYTE_TRIGGER, LOG_FILE_SIZE_TRIGGER]
  have h := drainLoop_inv (initLogger n) inputs h0
  obtain ⟨h1, h2⟩ := h
  have hB : LOG_BYTE_TRIGGER = 11250 := rfl
  have hF : LOG_FILE_SIZE_TRIGGER = 2700000 := rfl
  omega

/-- C3: after every byte appended to the active file (the append event leads
the step's trace), the flush trigger is evaluated and exactly one
buffer-committing operation — the `flush` of a plain flush point, or the
`close` of a rotation — occurs iff the incremented unflushed byte count has
reached `LOG_BYTE_TRIGGER` or `millis()` has reached `Log_Time`; never more
than one commit occurs, even when both conditions hold at once; and whenever
the trigger fires, `Log_Byte_Count` is reset to 0 and `Log_Time` is re-armed
to `now + LOG_TIME_TRIGGER` (in `uint32` arithmetic) in the same step. -/
theorem claim_C3 (r : OpResults) (s : LoggerState) (b now : Nat) :
    (loopStep r s b now).2.head? = some (Ev.append (LOG_FILE s.Log_File_Number) b) ∧
    commitCount (loopStep r s b now).2 ≤ 1 ∧
    (commitCount (loopStep r s b now).2 = 1 ↔
      ((s.Log_Byte_Count + 1) % UINT32_MOD ≥ LOG_BYTE_TRIGGER ∨ now ≥ s.Log_Time)) ∧
    (((s.Log_Byte_Count + 1) % UINT32_MOD ≥ LOG_BYTE_TRIGGER ∨ now ≥ s.Log_Time) →
      (loopStep r s b now).1.Log_Byte_Count = 0 ∧
      (loopStep r s b now).1.Log_Time = (now + LOG_TIME_TRIGGER) % UINT32_MOD) := by
  by_cases hf : (s.Log_Byte_Count + 1) % UINT32_MOD ≥ LOG_BYTE_TRIGGER ∨ now ≥ s.Log_Time
  · by_cases hlt : (s.Log_File_Byte_Count + 1) % UINT32_MOD < LOG_FILE_SIZE_TRIGGER
    · rw [loopStep_flush r s b now hf hlt]
      refine ⟨rfl, ?_, ?_, fun _ => ⟨rfl, rfl⟩⟩
      · simp [commitCount]
      · simp [commitCount, hf]
    · rw [loopStep_rotateRaw r s b now hf (by omega)]
      refine ⟨rfl, ?_, ?_, fun _ => ⟨rfl, rfl⟩⟩
      · simp [commitCount]
      · simp [commitCount, hf]
  · rw [loopStep_noFire r s b now hf]
    refine ⟨rfl, ?_, ?_, fun hcon => absurd hcon hf⟩
    · simp [commitCount]
    · simp [commitCount, hf]

/-- C3 witness: on the first byte the time deadline (initially 0) has
elapsed, so the trigger fires once, and both the byte counter and the
deadline are reset together. -/
theorem claim_C3_witness :
    commitCount (loopStep ⟨true, true, true, true, true⟩ (initLogger 0) 5 0).2 = 1 ∧
    (loopStep ⟨true, true, true, true, true⟩ (initLogger 0) 5 0).1.Log_Byte_Count = 0 ∧
    (loopStep ⟨true, true, true, true, true⟩ (initLogger 0) 5 0).1.Log_Time = 3000 := by
  have h := claim_C3 ⟨true, true, true, true, true⟩ (initLogger 0) 5 0
  have hfire : ((initLogger 0).Log_Byte_Count + 1) % UINT32_MOD ≥ LOG_BYTE_TRIGGER ∨
      (0 : Nat) ≥ (initLogger 0).Log_Time := Or.inr (by decide)
  obtain ⟨-, -, hiff, hreset⟩ := h
  obtain ⟨hbc, htime⟩ := hreset hfire
  exact ⟨hiff.mpr hfire, hbc, by simpa using htime⟩

/-- C6: if slot `i` is the first non-existent slot in ascending scan order
(every slot below `i` exists, `i ≤ 1299`), startup chooses `i` as the active
index, removes the next-in-line slot `(i + 1) % 1300` and only then opens the
active file. -/
theorem claim_C6 (ex : String → Bool) (i : Nat)
    (hi : i ≤ LOG_FILE_NUMBER_MAX)
    (hfree : ex (LOG_FILE i) = false)
    (hbelow : ∀ j, j < i → ex (LOG_FILE j) = true) :
    setupScan ex = (i, [Ev.remove (LOG_FILE ((i + 1) % (LOG_FILE_NUMBER_MAX + 1))),
                        Ev.openF (LOG_FILE i)]) := by
  have hM : LOG_FILE_NUMBER_MAX = 1299 := rfl
  have hscan : scanLogFileNumber ex = i := by
    rw [scanLogFileNumber]
    exact scanFromAux_finds ex i (Or.inr hfree) hi (LOG_FILE_NUMBER_MAX + 1) 0
      (Nat.zero_le i) (by omega) (fun j _ hj => hbelow j hj)
  have hgt : ¬ i > LOG_FILE_NUMBER_MAX := by omega
  simp only [setupScan, hscan, if_neg hgt]
  by_cases hmax : i = LOG_FILE_NUMBER_MAX
  · rw [if_pos hmax, hmax]
    simp [Nat.mod_self]
  · rw [if_neg hmax]
    have harg : (i + 1) % (LOG_FILE_NUMBER_MAX + 1) = i + 1 := by
      apply Nat.mod_eq_of_lt
      omega
    rw [harg]
    simp

/-- C6 witness: with slots 0, 1, 2 occupied and 3..1299 free, startup
chooses index 3 and removes slot 4 before opening the active file. -/
theorem claim_C6_witness :
    setupScan exThreeSlots = (3, [Ev.remove (LOG_FILE 4), Ev.openF (LOG_FILE 3)]) := by
  have h := claim_C6 exThreeSlots 3 (by decide) (by decide) (by decide)
  simpa using h

/-- C7 block check: the naming property over all 1300 indices, split as
13 blocks of 100 to keep the decision procedure's recursion shallow. -/
theorem LOG_FILE_padded_blocks : ∀ k, k < 13 → ∀ j, j < 100 →
    (LOG_FILE (100 * k + j) = "Dat" ++ specPadded4 (toString (100 * k + j)) ++ ".log" ∧
     (Str_Zeros (100 * k + j) ++ toString (100 * k + j)).length = 4) := by
  decide

/-- C7: the file-name formatter is a pure function of the index; for every
`i ≤ 1299` it returns `"Dat"`, then the decimal digits of `i` left-padded
with `'0'` to exactly 4 characters, then `".log"`; in particular it maps 7 to
`"Dat0007.log"`, 142 to `"Dat0142.log"` and 1299 to `"Dat1299.log"`. -/
theorem claim_C7 (i : Nat) (hi : i ≤ LOG_FILE_NUMBER_MAX) :
    (LOG_FILE i = "Dat" ++ specPadded4 (toString i) ++ ".log" ∧
     (Str_Zeros i ++ toString i).length = 4) ∧
    LOG_FILE 7 = "Dat0007.log" ∧ LOG_FILE 142 = "Dat0142.log" ∧
    LOG_FILE 1299 = "Dat1299.log" := by
  have hM : LOG_FILE_NUMBER_MAX = 1299 := rfl
  rw [hM] at hi
  refine ⟨?_, by decide, by decide, by decide⟩
  have h := LOG_FILE_padded_blocks (i / 100) (by omega) (i % 100) (by omega)
  rwa [Nat.div_add_mod] at h

/-- C7 witness: the padding property evaluated at index 7. -/
theorem claim_C7_witness :
    LOG_FILE 7 = "Dat0007.log" ∧ (Str_Zeros 7 ++ toString 7).length = 4 := by
  have h := claim_C7 7 (by decide)
  exact ⟨h.2.1, h.1.2⟩

/-- C9: if `SD.begin` fails at startup, the system is in the failed-init
mode, stays there for every subsequent step, its whole trace is the repeated
failure flash (an observable indication), and it contains not a single
serial read or storage operation. -/
theorem claim_C9 (sdOk : Bool) (ex : String → Bool) (inputs : List LoopInput)
    (h : sdOk = false) :
    (setupSys sdOk ex).1 = SysState.failedInit ∧
    (sysRun (setupSys sdOk ex).1 inputs).1 = SysState.failedInit ∧
    (sysRun (setupSys sdOk ex).1 inputs).2
        = (List.replicate inputs.length failFlash).flatten ∧
    countEv isIngestEv (sysRun (setupSys sdOk ex).1 inputs).2 = 0 := by
  subst h
  have hsetup : (setupSys false ex).1 = SysState.failedInit := by
    simp [setupSys]
  rw [hsetup, sysRun_failed]
  refine ⟨rfl, rfl, rfl, ?_⟩
  exact countEv_flatten_replicate isIngestEv inputs.length failFlash (by decide)

/-- C9 witness: with a failed `SD.begin` and one pending input, the system
is still failed and no ingest event occurs. -/
theorem claim_C9_witness :
    (setupSys false exThreeSlots).1 = SysState.failedInit ∧
    (sysRun (setupSys false exThreeSlots).1
        [⟨0, 0, ⟨true, true, true, true, true⟩⟩]).1 = SysState.failedInit ∧
    countEv isIngestEv (sysRun (setupSys false exThreeSlots).1
        [⟨0, 0, ⟨true, true, true, true, true⟩⟩]).2 = 0 := by
  have h := claim_C9 false exThreeSlots [⟨0, 0, ⟨true, true, true, true, true⟩⟩] rfl
  exact ⟨h.1, h.2.1, h.2.2.2⟩

end SerialLogger
